import Mathlib

set_option maxRecDepth 16000

/-!
Shallow embedding of the pxshot-cpp SDK (include/pxshot/pxshot.hpp and its
implementation file) together with a model of the two external collaborators
the spec names: the HTTP transport (httplib) and the JSON facility
(nlohmann::json).  The HTTP transport is passed explicitly as a function
argument (a stub transport, as the spec's testable properties require), and
the number of transport invocations is returned alongside the result.
-/

namespace Pxshot

-- =============================================================================
-- JSON collaborator model (nlohmann::json; external dependency, spec section 6)
-- =============================================================================

/-- JSON value model for the nlohmann::json collaborator (an external
dependency of the repository, spec section 6).  Numbers produced by the
modelled decoder are integers; the float constructor exists only because the
request serializer emits device_scale_factor. -/
inductive Json where
  | null
  | bool (b : Bool)
  | num (n : Int)
  | float (f : Float)
  | str (s : String)
  | arr (elems : List Json)
  | obj (fields : List (String × Json))

def lbraceChar : Char := Char.ofNat 123

def rbraceChar : Char := Char.ofNat 125

/-- Skip JSON whitespace. -/
def skipWs : List Char → List Char
  | c :: cs => if c = ' ' ∨ c = '\t' ∨ c = '\n' ∨ c = '\r' then skipWs cs else c :: cs
  | [] => []

def hexDigit (c : Char) : Option Nat :=
  if c.isDigit then some (c.toNat - 48)
  else if 'a' ≤ c ∧ c ≤ 'f' then some (c.toNat - 97 + 10)
  else if 'A' ≤ c ∧ c ≤ 'F' then some (c.toNat - 65 + 10)
  else none

/-- The simple escape table: the character named by a backslash escape.
Quote, backslash and slash denote themselves; n, t, r, b, f denote the
control characters with codes 10, 9, 13, 8, 12. -/
def escChar (e : Char) : Option Char :=
  if e = 'n' then some (Char.ofNat 10)
  else if e = 't' then some (Char.ofNat 9)
  else if e = 'r' then some (Char.ofNat 13)
  else if e = 'b' then some (Char.ofNat 8)
  else if e = 'f' then some (Char.ofNat 12)
  else if e = '"' ∨ e = '\\' ∨ e = '/' then some e
  else none

/-- Parse the remainder of a JSON string literal (after the opening quote). -/
def parseStrBody : Nat → List Char → Option (List Char × List Char)
  | 0, _ => none
  | _ + 1, [] => none
  | fuel + 1, c :: cs =>
    if c = '"' then some ([], cs)
    else if c = '\\' then
      match cs with
      | 'u' :: h1 :: h2 :: h3 :: h4 :: cs2 =>
        match hexDigit h1, hexDigit h2, hexDigit h3, hexDigit h4 with
        | some d1, some d2, some d3, some d4 =>
          match parseStrBody fuel cs2 with
          | some (rest, rem) =>
            some (Char.ofNat (((d1 * 16 + d2) * 16 + d3) * 16 + d4) :: rest, rem)
          | none => none
        | _, _, _, _ => none
      | e :: cs2 =>
        match escChar e with
        | some c2 =>
          match parseStrBody fuel cs2 with
          | some (rest, rem) => some (c2 :: rest, rem)
          | none => none
        | none => none
      | [] => none
    else if c.toNat < 32 then none
    else
      match parseStrBody fuel cs with
      | some (rest, rem) => some (c :: rest, rem)
      | none => none

def expectChars : List Char → List Char → Option (List Char)
  | [], rest => some rest
  | e :: es, c :: cs => if c = e then expectChars es cs else none
  | _ :: _, [] => none

def digitsToNat (acc : Nat) : List Char → Nat × List Char
  | c :: cs => if c.isDigit then digitsToNat (acc * 10 + (c.toNat - 48)) cs else (acc, c :: cs)
  | [] => (acc, [])

/-- Finish an integral numeral.  The modelled decoder covers integral
numerals only (a fraction or exponent makes the modelled parse fail); no
response consumed by the SDK carries non-integral numbers. -/
def mkNum (neg : Bool) : Nat × List Char → Option (Json × List Char)
  | (n, rest) =>
    match rest with
    | d :: _ =>
      if d = '.' ∨ d = 'e' ∨ d = 'E' then none
      else some (Json.num (if neg then -(n : Int) else (n : Int)), rest)
    | [] => some (Json.num (if neg then -(n : Int) else (n : Int)), [])

def parseNum (input : List Char) : Option (Json × List Char) :=
  match input with
  | '-' :: cs =>
    match cs with
    | c :: _ => if c.isDigit then mkNum true (digitsToNat 0 cs) else none
    | [] => none
  | c :: cs => if c.isDigit then mkNum false (digitsToNat 0 (c :: cs)) else none
  | [] => none

mutual

/-- Recursive-descent JSON parse (model of json::parse), fuel-indexed. -/
def parseVal : Nat → List Char → Option (Json × List Char)
  | 0, _ => none
  | fuel + 1, input =>
    match skipWs input with
    | [] => none
    | c :: cs =>
      if c = '"' then
        match parseStrBody (cs.length + 1) cs with
        | some (chars, rest) => some (Json.str (String.mk chars), rest)
        | none => none
      else if c = lbraceChar then
        match skipWs cs with
        | d :: ds =>
          if d = rbraceChar then some (Json.obj [], ds)
          else
            match parseMembers fuel (d :: ds) with
            | some (fields, rest) => some (Json.obj fields, rest)
            | none => none
        | [] => none
      else if c = '[' then
        match skipWs cs with
        | d :: ds =>
          if d = ']' then some (Json.arr [], ds)
          else
            match parseElems fuel (d :: ds) with
            | some (elems, rest) => some (Json.arr elems, rest)
            | none => none
        | [] => none
      else if c = 't' then
        match expectChars "rue".data cs with
        | some rest => some (Json.bool true, rest)
        | none => none
      else if c = 'f' then
        match expectChars "alse".data cs with
        | some rest => some (Json.bool false, rest)
        | none => none
      else if c = 'n' then
        match expectChars "ull".data cs with
        | some rest => some (Json.null, rest)
        | none => none
      else parseNum (c :: cs)

/-- Parse one or more `"key": value` members followed by the closing brace. -/
def parseMembers : Nat → List Char → Option (List (String × Json) × List Char)
  | 0, _ => none
  | fuel + 1, input =>
    match skipWs input with
    | '"' :: cs =>
      match parseStrBody (cs.length + 1) cs with
      | some (key, rest) =>
        match skipWs rest with
        | ':' :: rest2 =>
          match parseVal fuel rest2 with
          | some (v, rest3) =>
            match skipWs rest3 with
            | ',' :: rest4 =>
              match parseMembers fuel rest4 with
              | some (fields, rest5) => some ((String.mk key, v) :: fields, rest5)
              | none => none
            | d :: rest4 =>
              if d = rbraceChar then some ((String.mk key, v) :: [], rest4) else none
            | [] => none
          | none => none
        | _ => none
      | none => none
    | _ => none

/-- Parse one or more array elements followed by the closing bracket. -/
def parseElems : Nat → List Char → Option (List Json × List Char)
  | 0, _ => none
  | fuel + 1, input =>
    match parseVal fuel input with
    | some (v, rest) =>
      match skipWs rest with
      | ',' :: rest2 =>
        match parseElems fuel rest2 with
        | some (elems, rest3) => some (v :: elems, rest3)
        | none => none
      | ']' :: rest2 => some (v :: [], rest2)
      | _ => none
    | none => none

end

/-- Model of json::parse on a whole document: the entire input must be
consumed (trailing content is a parse error, as in nlohmann). -/
def Json.parse (s : String) : Option Json :=
  match parseVal (2 * s.length + 8) s.data with
  | some (v, rest) => if (skipWs rest).isEmpty then some v else none
  | none => none

/-- Model of basic_json::value(key, default) at string type: throws (none)
on a non-object or on a present non-string field; yields the default when the
field is absent. -/
def Json.valueStr (j : Json) (key : String) (dflt : String) : Option String :=
  match j with
  | .obj fields =>
    match fields.lookup key with
    | none => some dflt
    | some (.str s) => some s
    | some _ => none
  | _ => none

/-- Model of basic_json::at(key).get of a string: throws (none) when the
receiver is not an object, the field is absent, or the field is not a string. -/
def Json.atStr (j : Json) (key : String) : Option String :=
  match j with
  | .obj fields =>
    match fields.lookup key with
    | some (.str s) => some s
    | _ => none
  | _ => none

/-- Model of basic_json::at(key).get of an integer: throws (none) when the
receiver is not an object, the field is absent, or the field is not a number
(the modelled decoder produces integral numbers only). -/
def Json.atInt (j : Json) (key : String) : Option Int :=
  match j with
  | .obj fields =>
    match fields.lookup key with
    | some (.num n) => some n
    | _ => none
  | _ => none

def escapeJsonChar (c : Char) : List Char :=
  if c = '"' then '\\' :: '"' :: []
  else if c = '\\' then '\\' :: '\\' :: []
  else if c = '\n' then '\\' :: 'n' :: []
  else if c = '\t' then '\\' :: 't' :: []
  else if c = '\r' then '\\' :: 'r' :: []
  else c :: []

def escapeJsonStr (s : String) : String := String.mk (s.data.map escapeJsonChar).flatten

mutual

/-- Model of basic_json::dump (compact serialization).  Only its existence
matters to the SDK model: the serialized request is handed to the transport
opaquely. -/
def Json.dump : Json → String
  | .null => "null"
  | .bool true => "true"
  | .bool false => "false"
  | .num n => toString n
  | .float f => toString f
  | .str s => "\"" ++ escapeJsonStr s ++ "\""
  | .arr elems => "[" ++ dumpElems elems ++ "]"
  | .obj fields => "\x7b" ++ dumpFields fields ++ "\x7d"

def dumpElems : List Json → String
  | [] => ""
  | x :: [] => Json.dump x
  | x :: y :: xs => Json.dump x ++ "," ++ dumpElems (y :: xs)

def dumpFields : List (String × Json) → String
  | [] => ""
  | (k, v) :: [] => "\"" ++ escapeJsonStr k ++ "\":" ++ Json.dump v
  | (k, v) :: y :: xs =>
    "\"" ++ escapeJsonStr k ++ "\":" ++ Json.dump v ++ "," ++ dumpFields (y :: xs)

end

/-- Substring containment, model of std::string::find(needle) != npos. -/
def listContainsSub (needle : List Char) : List Char → Bool
  | [] => needle.isEmpty
  | c :: cs => needle.isPrefixOf (c :: cs) || listContainsSub needle cs

def strContains (haystack needle : String) : Bool :=
  listContainsSub needle.data haystack.data

-- =============================================================================
-- SDK data model (include/pxshot/pxshot.hpp)
-- =============================================================================

def VERSION : String := "1.0.0"

/-- The exception taxonomy of the SDK: Error (generic base), HttpError,
ApiError, ValidationError.  Each constructor carries the data the
corresponding exception class stores. -/
inductive Error where
  | generic (message : String)
  | http (status_code : Int) (message : String)
  | api (error_code : String) (message : String)
  | validation (message : String)
deriving DecidableEq

/-- Image format for screenshots. -/
inductive Format where
  | PNG
  | JPEG
  | WEBP
deriving DecidableEq

/-- When to consider navigation complete. -/
inductive WaitUntil where
  | Load
  | DOMContentLoaded
  | NetworkIdle
  | Commit
deriving DecidableEq

/-- to_string(Format). -/
def Format.to_string : Format → String
  | .PNG => "png"
  | .JPEG => "jpeg"
  | .WEBP => "webp"

/-- to_string(WaitUntil). -/
def WaitUntil.to_string : WaitUntil → String
  | .Load => "load"
  | .DOMContentLoaded => "domcontentloaded"
  | .NetworkIdle => "networkidle"
  | .Commit => "commit"

/-- Screenshot request options. -/
structure ScreenshotOptions where
  url : String
  format : Option Format := none
  quality : Option Int := none
  width : Option Int := none
  height : Option Int := none
  full_page : Option Bool := none
  wait_until : Option WaitUntil := none
  wait_for_selector : Option String := none
  wait_for_timeout : Option Int := none
  device_scale_factor : Option Float := none
  store : Option Bool := none
  block_ads : Option Bool := none

/-- Result when store=true. -/
structure StoredScreenshot where
  url : String
  expires_at : String
  width : Int
  height : Int
  size_bytes : Int
deriving DecidableEq

/-- Screenshot result: the class holds a byte vector (modelled as the list of
the body's characters, one per byte) and an optional StoredScreenshot, the
private fields bytes_ and stored_. -/
structure ScreenshotResult where
  bytes_ : List Char
  stored_ : Option StoredScreenshot
deriving DecidableEq

/-- The private bytes constructor ScreenshotResult(std::vector). -/
def ScreenshotResult.ofBytes (data : List Char) : ScreenshotResult :=
  { bytes_ := data, stored_ := none }

/-- The private stored constructor ScreenshotResult(StoredScreenshot). -/
def ScreenshotResult.ofStored (info : StoredScreenshot) : ScreenshotResult :=
  { bytes_ := [], stored_ := some info }

/-- is_stored(): stored_.has_value(). -/
def ScreenshotResult.is_stored (r : ScreenshotResult) : Bool := r.stored_.isSome

/-- is_bytes(): !bytes_.empty(). -/
def ScreenshotResult.is_bytes (r : ScreenshotResult) : Bool := !r.bytes_.isEmpty

/-- stored(): throws the generic Error if stored_ is empty. -/
def ScreenshotResult.stored (r : ScreenshotResult) : Except Error StoredScreenshot :=
  match r.stored_ with
  | none => .error (.generic "Screenshot was not stored - use bytes() instead")
  | some s => .ok s

/-- bytes(): throws the generic Error if stored_ is populated. -/
def ScreenshotResult.bytes (r : ScreenshotResult) : Except Error (List Char) :=
  match r.stored_ with
  | some _ => .error (.generic "Screenshot was stored - use stored() instead")
  | none => .ok r.bytes_

/-- take_bytes(): same guard as bytes(), then moves the buffer out.  The
moved-from std::vector is left empty, modelled by returning the updated
result state alongside the extracted buffer. -/
def ScreenshotResult.take_bytes (r : ScreenshotResult) :
    Except Error (List Char × ScreenshotResult) :=
  match r.stored_ with
  | some _ => .error (.generic "Screenshot was stored - use stored() instead")
  | none => .ok (r.bytes_, { r with bytes_ := [] })

/-- Convenience accessor url(): stored().url. -/
def ScreenshotResult.url (r : ScreenshotResult) : Except Error String :=
  r.stored.map StoredScreenshot.url

/-- Convenience accessor expires_at(): stored().expires_at. -/
def ScreenshotResult.expires_at (r : ScreenshotResult) : Except Error String :=
  r.stored.map StoredScreenshot.expires_at

/-- Convenience accessor width(): stored().width. -/
def ScreenshotResult.width (r : ScreenshotResult) : Except Error Int :=
  r.stored.map StoredScreenshot.width

/-- Convenience accessor height(): stored().height. -/
def ScreenshotResult.height (r : ScreenshotResult) : Except Error Int :=
  r.stored.map StoredScreenshot.height

/-- Convenience accessor size_bytes(): stored().size_bytes. -/
def ScreenshotResult.size_bytes (r : ScreenshotResult) : Except Error Int :=
  r.stored.map StoredScreenshot.size_bytes

/-- API usage statistics. -/
structure Usage where
  screenshots_taken : Int
  screenshots_limit : Int
  storage_bytes_used : Int
  storage_bytes_limit : Int
  period_start : String
  period_end : String
deriving DecidableEq

/-- Client configuration. -/
structure ClientConfig where
  api_key : String
  base_url : String := "https://api.pxshot.com"
  timeout_seconds : Int := 60
  user_agent : Option String := none
deriving DecidableEq

/-- The client.  The C++ class owns an Impl holding the configuration and the
httplib client; only the configuration carries state the operations read. -/
structure Client where
  config : ClientConfig
deriving DecidableEq

-- =============================================================================
-- Transport collaborator model (httplib; external dependency, spec section 6)
-- =============================================================================

/-- One HTTP response as the SDK observes it: status, the value of the
Content-Type header (httplib yields the empty string when absent), and the
raw body. -/
structure HttpResponse where
  status : Int
  contentType : String
  body : String
deriving DecidableEq

/-- Model of httplib::Result: a response, or a transport-level failure
carrying the diagnostic text of httplib::to_string(res.error()). -/
abbrev TransportResult := Except String HttpResponse

/-- Model of httplib::Client::Post: path, headers, serialized body, content
type. -/
abbrev Transport := String → List (String × String) → String → String → TransportResult

/-- Model of httplib::Client::Get: path, headers. -/
abbrev TransportGet := String → List (String × String) → TransportResult

-- =============================================================================
-- Client implementation (the implementation file)
-- =============================================================================

/-- Impl::make_headers. -/
def Client.make_headers (c : Client) (json_content : Bool) : List (String × String) :=
  [("Authorization", "Bearer " ++ c.config.api_key)]
    ++ (if json_content then [("Content-Type", "application/json")] else [])
    ++ [("User-Agent", c.config.user_agent.getD ("pxshot-cpp/" ++ VERSION))]

/-- Impl::check_response: transport failure yields HttpError(0, ...); a
status at least 400 attempts json::parse of the body and then
value("code", "unknown") and value("message", body); a throwing parse or
extraction degrades to HttpError(status, ...), otherwise ApiError is
raised.  Returns the raised error, none when the response passes. -/
def check_response (res : TransportResult) (context : String) : Option Error :=
  match res with
  | .error err => some (.http 0 (context ++ ": " ++ err))
  | .ok r =>
    if r.status ≥ 400 then
      match Json.parse r.body with
      | none => some (.http r.status (context ++ ": HTTP " ++ toString r.status))
      | some body =>
        match body.valueStr "code" "unknown" with
        | none => some (.http r.status (context ++ ": HTTP " ++ toString r.status))
        | some code =>
          match body.valueStr "message" r.body with
          | none => some (.http r.status (context ++ ": HTTP " ++ toString r.status))
          | some message => some (.api code message)
    else none

/-- Client::Client(ClientConfig). -/
def Client.ofConfig (config : ClientConfig) : Except Error Client :=
  if config.api_key.isEmpty then .error (.validation "API key is required")
  else .ok { config := config }

/-- Client::Client(std::string_view): delegates to the config constructor
with the remaining fields defaulted. -/
def Client.ofKey (api_key : String) : Except Error Client :=
  Client.ofConfig { api_key := api_key }

/-- The quality guard: options.quality && (*options.quality < 0 ||
*options.quality > 100). -/
def qualityOutOfRange (q : Option Int) : Bool :=
  match q with
  | some q => decide (q < 0 ∨ 100 < q)
  | none => false

/-- The width/height guard: options.f && *options.f <= 0. -/
def nonPositive (v : Option Int) : Bool :=
  match v with
  | some x => decide (x ≤ 0)
  | none => false

/-- The request-body serialization of Client::screenshot: url plus every
present optional field, absent fields omitted entirely.  (nlohmann keeps
object members sorted by key; the order is irrelevant because the serialized
request is opaque to the transport, so insertion order is kept here.) -/
def buildScreenshotBody (options : ScreenshotOptions) : Json :=
  Json.obj (
    [("url", Json.str options.url)]
    ++ (match options.format with | some f => [("format", Json.str f.to_string)] | none => [])
    ++ (match options.quality with | some q => [("quality", Json.num q)] | none => [])
    ++ (match options.width with | some w => [("width", Json.num w)] | none => [])
    ++ (match options.height with | some h => [("height", Json.num h)] | none => [])
    ++ (match options.full_page with | some b => [("full_page", Json.bool b)] | none => [])
    ++ (match options.wait_until with | some w => [("wait_until", Json.str w.to_string)] | none => [])
    ++ (match options.wait_for_selector with | some s => [("wait_for_selector", Json.str s)] | none => [])
    ++ (match options.wait_for_timeout with | some t => [("wait_for_timeout", Json.num t)] | none => [])
    ++ (match options.device_scale_factor with | some d => [("device_scale_factor", Json.float d)] | none => [])
    ++ (match options.store with | some b => [("store", Json.bool b)] | none => [])
    ++ (match options.block_ads with | some b => [("block_ads", Json.bool b)] | none => []))

/-- The body-parsing block of Client::screenshot for the stored shape:
json::parse then at(...).get for each of the five required fields; any
json::exception is caught (none). -/
def parseStored (bodyText : String) : Option StoredScreenshot := do
  let response ← Json.parse bodyText
  let url ← response.atStr "url"
  let expires_at ← response.atStr "expires_at"
  let width ← response.atInt "width"
  let height ← response.atInt "height"
  let size_bytes ← response.atInt "size_bytes"
  pure { url := url, expires_at := expires_at, width := width,
         height := height, size_bytes := size_bytes }

/-- Response interpretation of Client::screenshot after the POST: first
check_response; then store_mode = options.store.value_or(false), is_json =
Content-Type contains application/json; stored parse (a failure surfaces the
generic Error with the parse diagnostic, whose library-supplied suffix is not
modelled) or the body wrapped unchanged as bytes.  The transport-failure arm
after a passing check_response is unreachable and mirrors check_response's
own transport arm. -/
def screenshotResponse (options : ScreenshotOptions) (res : TransportResult) :
    Except Error ScreenshotResult :=
  match check_response res "Screenshot request failed" with
  | some e => .error e
  | none =>
    match res with
    | .error err => .error (.http 0 ("Screenshot request failed: " ++ err))
    | .ok r =>
      let store_mode := options.store.getD false
      let content_type := r.contentType
      let is_json := strContains content_type "application/json"
      if store_mode || is_json then
        match parseStored r.body with
        | some stored => .ok (ScreenshotResult.ofStored stored)
        | none => .error (.generic "Failed to parse stored screenshot response")
      else
        .ok (ScreenshotResult.ofBytes r.body.data)

/-- Client::screenshot.  The transport is the explicit collaborator; the
returned Nat counts its invocations (0 when validation rejects the options
before the network, 1 otherwise). -/
def Client.screenshot (c : Client) (post : Transport) (options : ScreenshotOptions) :
    Except Error ScreenshotResult × Nat :=
  if options.url.isEmpty then (.error (.validation "URL is required"), 0)
  else if qualityOutOfRange options.quality then
    (.error (.validation "Quality must be between 0 and 100"), 0)
  else if nonPositive options.width then (.error (.validation "Width must be positive"), 0)
  else if nonPositive options.height then (.error (.validation "Height must be positive"), 0)
  else
    let body := buildScreenshotBody options
    let res := post "/v1/screenshot" (c.make_headers true) body.dump "application/json"
    (screenshotResponse options res, 1)

/-- The body-parsing block of Client::usage: json::parse then at(...).get for
each of the six required fields; any json::exception is caught (none). -/
def parseUsage (bodyText : String) : Option Usage := do
  let response ← Json.parse bodyText
  let screenshots_taken ← response.atInt "screenshots_taken"
  let screenshots_limit ← response.atInt "screenshots_limit"
  let storage_bytes_used ← response.atInt "storage_bytes_used"
  let storage_bytes_limit ← response.atInt "storage_bytes_limit"
  let period_start ← response.atStr "period_start"
  let period_end ← response.atStr "period_end"
  pure { screenshots_taken := screenshots_taken, screenshots_limit := screenshots_limit,
         storage_bytes_used := storage_bytes_used, storage_bytes_limit := storage_bytes_limit,
         period_start := period_start, period_end := period_end }

/-- Response interpretation of Client::usage after the GET. -/
def usageResponse (res : TransportResult) : Except Error Usage :=
  match check_response res "Usage request failed" with
  | some e => .error e
  | none =>
    match res with
    | .error err => .error (.http 0 ("Usage request failed: " ++ err))
    | .ok r =>
      match parseUsage r.body with
      | some u => .ok u
      | none => .error (.generic "Failed to parse usage response")

/-- Client::usage. -/
def Client.usage (c : Client) (get : TransportGet) : Except Error Usage :=
  usageResponse (get "/v1/usage" (c.make_headers false))

deriving instance DecidableEq for Except

-- =============================================================================
-- Shared lemmas
-- =============================================================================

theorem store_getD_false {o : Option Bool} (h : o ≠ some true) : o.getD false = false := by
  cases o with
  | none => rfl
  | some b =>
    cases b with
    | false => rfl
    | true => exact absurd rfl h

/-- Once the four local validations pass, Client::screenshot issues exactly
one POST and interprets its result. -/
theorem screenshot_validated (c : Client) (post : Transport) (options : ScreenshotOptions)
    (hurl : options.url.isEmpty = false)
    (hq : qualityOutOfRange options.quality = false)
    (hw : nonPositive options.width = false)
    (hh : nonPositive options.height = false) :
    c.screenshot post options =
      (screenshotResponse options
        (post "/v1/screenshot" (c.make_headers true) (buildScreenshotBody options).dump
          "application/json"), 1) := by
  unfold Client.screenshot
  simp [hurl, hq, hw, hh]

-- =============================================================================
-- Claims
-- =============================================================================

/-- C3 counterexample: the bytes constructor applied to the empty byte
vector yields a result on which both is_bytes() and is_stored() return
false, refuting "exactly one of the two queries returns true, never
neither, for every input byte vector including the empty one". -/
theorem c3_counterexample :
    (ScreenshotResult.ofBytes []).is_bytes = false
      ∧ (ScreenshotResult.ofBytes []).is_stored = false := by
  exact ⟨rfl, rfl⟩

/-- C3 (amended): through is_bytes() and is_stored(), the bytes constructor
on a nonempty vector and the stored constructor each populate exactly one
variant; the bytes constructor on the empty vector answers false to both
queries. -/
theorem c3_variant_queries_amended :
    (∀ data : List Char, data ≠ [] →
        (ScreenshotResult.ofBytes data).is_bytes = true
          ∧ (ScreenshotResult.ofBytes data).is_stored = false)
    ∧ ((ScreenshotResult.ofBytes []).is_bytes = false
        ∧ (ScreenshotResult.ofBytes []).is_stored = false)
    ∧ (∀ info : StoredScreenshot,
        (ScreenshotResult.ofStored info).is_stored = true
          ∧ (ScreenshotResult.ofStored info).is_bytes = false) := by
  refine ⟨?_, ⟨rfl, rfl⟩, ?_⟩
  · intro data hd
    cases data with
    | nil => exact absurd rfl hd
    | cons c cs => exact ⟨rfl, rfl⟩
  · intro info
    exact ⟨rfl, rfl⟩

/-- C3 witness: the amended theorem applied to a one-byte vector. -/
theorem c3_witness :
    (ScreenshotResult.ofBytes [ 'P']).is_bytes = true
      ∧ (ScreenshotResult.ofBytes [ 'P']).is_stored = false :=
  c3_variant_queries_amended.1 [ 'P'] (by decide)

/-- C5: with an empty url, screenshot fails with ValidationError and the
transport is invoked zero times. -/
theorem c5_empty_url_no_call (c : Client) (post : Transport) (options : ScreenshotOptions)
    (h : options.url = "") :
    c.screenshot post options = (.error (.validation "URL is required"), 0) := by
  unfold Client.screenshot
  rw [h]
  rfl

/-- C5 witness: the theorem applied to a concrete client, transport stub and
empty-url options. -/
theorem c5_witness :
    (({ config := { api_key := "k" } } : Client)).screenshot
        (fun _ _ _ _ => Except.ok ⟨200, "image/png", "BODY"⟩) { url := "" }
      = (.error (.validation "URL is required"), 0) :=
  c5_empty_url_no_call { config := { api_key := "k" } }
    (fun _ _ _ _ => Except.ok ⟨200, "image/png", "BODY"⟩) { url := "" } rfl

/-- C8: both constructors reject an empty API key with ValidationError, and
a non-empty key constructs the client without a ValidationError. -/
theorem c8_api_key_validation :
    (∀ cfg : ClientConfig, cfg.api_key = "" →
        Client.ofConfig cfg = .error (.validation "API key is required"))
    ∧ (∀ cfg : ClientConfig, cfg.api_key ≠ "" → Client.ofConfig cfg = .ok { config := cfg })
    ∧ Client.ofKey "" = .error (.validation "API key is required")
    ∧ (∀ k : String, k ≠ "" → Client.ofKey k = .ok { config := { api_key := k } }) := by
  refine ⟨?_, ?_, rfl, ?_⟩
  · intro cfg h
    unfold Client.ofConfig
    rw [h]
    rfl
  · intro cfg h
    unfold Client.ofConfig
    simp [String.isEmpty_iff, h]
  · intro k h
    unfold Client.ofKey Client.ofConfig
    simp [String.isEmpty_iff, h]

/-- C8 witness: the theorem applied to an empty and a non-empty key. -/
theorem c8_witness :
    Client.ofConfig { api_key := "" } = .error (.validation "API key is required")
      ∧ Client.ofKey "sk-live-1" = .ok { config := { api_key := "sk-live-1" } } :=
  ⟨c8_api_key_validation.1 { api_key := "" } rfl,
   c8_api_key_validation.2.2.2 "sk-live-1" (by decide)⟩

/-- C9: bytes() fails with the generic Error exactly when the stored variant
is populated; take_bytes() on a bytes result hands the buffer out and leaves
the result with an empty buffer, so a later bytes() succeeds with the empty
sequence, is_bytes() is false, and a second take_bytes() yields the empty
sequence. -/
theorem c9_take_bytes_discipline :
    (∀ r : ScreenshotResult,
        r.bytes = .error (.generic "Screenshot was stored - use stored() instead")
          ↔ r.stored_.isSome = true)
    ∧ (∀ data : List Char,
        (ScreenshotResult.ofBytes data).take_bytes = .ok (data, ScreenshotResult.ofBytes [])
          ∧ (ScreenshotResult.ofBytes []).bytes = .ok []
          ∧ (ScreenshotResult.ofBytes []).is_bytes = false
          ∧ (ScreenshotResult.ofBytes []).take_bytes = .ok ([], ScreenshotResult.ofBytes [])) := by
  constructor
  · intro r
    constructor
    · intro h
      cases hs : r.stored_ with
      | none => rw [ScreenshotResult.bytes, hs] at h; exact absurd h (by simp)
      | some s => rfl
    · intro h
      cases hs : r.stored_ with
      | none => rw [hs] at h; exact absurd h (by simp)
      | some s => rw [ScreenshotResult.bytes, hs]
  · intro data
    exact ⟨rfl, rfl, rfl, rfl⟩

/-- C9 witness: the theorem applied to a stored result and a two-byte
buffer. -/
theorem c9_witness :
    ((ScreenshotResult.ofStored ⟨"https://x", "2025", 1, 2, 3⟩).bytes
        = .error (.generic "Screenshot was stored - use stored() instead"))
      ∧ (ScreenshotResult.ofBytes "AB".data).take_bytes
          = .ok ("AB".data, ScreenshotResult.ofBytes []) :=
  ⟨(c9_take_bytes_discipline.1 (ScreenshotResult.ofStored ⟨"https://x", "2025", 1, 2, 3⟩)).mpr
      (by decide),
   (c9_take_bytes_discipline.2 "AB".data).1⟩

/-- C10: on a result whose stored variant is not populated, stored() and
each convenience accessor fail with the same generic Error. -/
theorem c10_accessor_errors (r : ScreenshotResult) (h : r.stored_ = none) :
    r.stored = .error (.generic "Screenshot was not stored - use bytes() instead")
      ∧ r.url = .error (.generic "Screenshot was not stored - use bytes() instead")
      ∧ r.expires_at = .error (.generic "Screenshot was not stored - use bytes() instead")
      ∧ r.width = .error (.generic "Screenshot was not stored - use bytes() instead")
      ∧ r.height = .error (.generic "Screenshot was not stored - use bytes() instead")
      ∧ r.size_bytes = .error (.generic "Screenshot was not stored - use bytes() instead") := by
  have hs : r.stored = .error (.generic "Screenshot was not stored - use bytes() instead") := by
    rw [ScreenshotResult.stored, h]
  refine ⟨hs, ?_, ?_, ?_, ?_, ?_⟩ <;>
    simp [ScreenshotResult.url, ScreenshotResult.expires_at, ScreenshotResult.width,
      ScreenshotResult.height, ScreenshotResult.size_bytes, hs, Except.map]

/-- C10 witness: the theorem applied to a bytes-variant result. -/
theorem c10_witness :
    (ScreenshotResult.ofBytes "IMG".data).stored
        = .error (.generic "Screenshot was not stored - use bytes() instead")
      ∧ (ScreenshotResult.ofBytes "IMG".data).url
        = .error (.generic "Screenshot was not stored - use bytes() instead")
      ∧ (ScreenshotResult.ofBytes "IMG".data).expires_at
        = .error (.generic "Screenshot was not stored - use bytes() instead")
      ∧ (ScreenshotResult.ofBytes "IMG".data).width
        = .error (.generic "Screenshot was not stored - use bytes() instead")
      ∧ (ScreenshotResult.ofBytes "IMG".data).height
        = .error (.generic "Screenshot was not stored - use bytes() instead")
      ∧ (ScreenshotResult.ofBytes "IMG".data).size_bytes
        = .error (.generic "Screenshot was not stored - use bytes() instead") :=
  c10_accessor_errors (ScreenshotResult.ofBytes "IMG".data) rfl

/-- C6: with a non-empty url, a present quality outside [0,100] is rejected
with ValidationError while 0 and 100 (and every value between) pass
validation and reach the transport; a present width or height at most 0 is
rejected while 1 passes; options with every optional field absent are never
rejected.  A transport count of 1 records that validation passed. -/
theorem c6_numeric_validation (c : Client) (post : Transport) (u : String)
    (hu : u.isEmpty = false) :
    (∀ q : Int, q < 0 ∨ 100 < q →
        c.screenshot post { url := u, quality := some q }
          = (.error (.validation "Quality must be between 0 and 100"), 0))
    ∧ (∀ q : Int, 0 ≤ q → q ≤ 100 →
        (c.screenshot post { url := u, quality := some q }).2 = 1)
    ∧ (∀ w : Int, w ≤ 0 →
        c.screenshot post { url := u, width := some w }
          = (.error (.validation "Width must be positive"), 0))
    ∧ (c.screenshot post { url := u, width := some 1 }).2 = 1
    ∧ (∀ h : Int, h ≤ 0 →
        c.screenshot post { url := u, height := some h }
          = (.error (.validation "Height must be positive"), 0))
    ∧ (c.screenshot post { url := u, height := some 1 }).2 = 1
    ∧ (c.screenshot post { url := u }).2 = 1 := by
  refine ⟨?_, ?_, ?_, ?_, ?_, ?_, ?_⟩
  · intro q hq
    unfold Client.screenshot
    simp [hu, qualityOutOfRange, hq]
  · intro q h0 h1
    rw [screenshot_validated c post { url := u, quality := some q } hu
      (by simp [qualityOutOfRange]; omega) rfl rfl]
  · intro w hw
    unfold Client.screenshot
    simp [hu, qualityOutOfRange, nonPositive, hw]
  · rw [screenshot_validated c post { url := u, width := some 1 } hu rfl
      (by simp [nonPositive]) rfl]
  · intro h hh
    unfold Client.screenshot
    simp [hu, qualityOutOfRange, nonPositive, hh]
  · rw [screenshot_validated c post { url := u, height := some 1 } hu rfl rfl
      (by simp [nonPositive])]
  · rw [screenshot_validated c post { url := u } hu rfl rfl rfl]

/-- C6 witness: the theorem applied at quality 101 (rejected), the
boundaries 0 and 100 (validation passes, the transport is reached), width
and height 0 (rejected) and 1 (pass), and all-absent options. -/
theorem c6_witness :
    (({ config := { api_key := "k" } } : Client)).screenshot
        (fun _ _ _ _ => Except.ok ⟨200, "image/png", "B"⟩)
        { url := "https://a", quality := some 101 }
      = (.error (.validation "Quality must be between 0 and 100"), 0)
    ∧ ((({ config := { api_key := "k" } } : Client)).screenshot
        (fun _ _ _ _ => Except.ok ⟨200, "image/png", "B"⟩)
        { url := "https://a", quality := some 0 }).2 = 1
    ∧ ((({ config := { api_key := "k" } } : Client)).screenshot
        (fun _ _ _ _ => Except.ok ⟨200, "image/png", "B"⟩)
        { url := "https://a", quality := some 100 }).2 = 1
    ∧ (({ config := { api_key := "k" } } : Client)).screenshot
        (fun _ _ _ _ => Except.ok ⟨200, "image/png", "B"⟩)
        { url := "https://a", width := some 0 }
      = (.error (.validation "Width must be positive"), 0)
    ∧ ((({ config := { api_key := "k" } } : Client)).screenshot
        (fun _ _ _ _ => Except.ok ⟨200, "image/png", "B"⟩)
        { url := "https://a", width := some 1 }).2 = 1
    ∧ (({ config := { api_key := "k" } } : Client)).screenshot
        (fun _ _ _ _ => Except.ok ⟨200, "image/png", "B"⟩)
        { url := "https://a", height := some 0 }
      = (.error (.validation "Height must be positive"), 0)
    ∧ ((({ config := { api_key := "k" } } : Client)).screenshot
        (fun _ _ _ _ => Except.ok ⟨200, "image/png", "B"⟩)
        { url := "https://a", height := some 1 }).2 = 1
    ∧ ((({ config := { api_key := "k" } } : Client)).screenshot
        (fun _ _ _ _ => Except.ok ⟨200, "image/png", "B"⟩)
        { url := "https://a" }).2 = 1 :=
  ⟨(c6_numeric_validation _ _ _ (by decide)).1 101 (by decide),
   (c6_numeric_validation _ _ _ (by decide)).2.1 0 (by decide) (by decide),
   (c6_numeric_validation _ _ _ (by decide)).2.1 100 (by decide) (by decide),
   (c6_numeric_validation _ _ _ (by decide)).2.2.1 0 (by decide),
   (c6_numeric_validation _ _ _ (by decide)).2.2.2.1,
   (c6_numeric_validation _ _ _ (by decide)).2.2.2.2.1 0 (by decide),
   (c6_numeric_validation _ _ _ (by decide)).2.2.2.2.2.1,
   (c6_numeric_validation _ _ _ (by decide)).2.2.2.2.2.2⟩

/-- C2 counterexample: HTTP 402 with the body consisting of an empty JSON
object.  The body parses as JSON yet carries no code field, and
check_response raises ApiError("unknown", body) — neither an HttpError with
the numeric status nor an ApiError carrying a code taken from the body. -/
theorem c2_counterexample :
    check_response (Except.ok ⟨402, "", "\x7b\x7d"⟩) "Screenshot request failed"
        = some (.api "unknown" "\x7b\x7d")
      ∧ Json.parse "\x7b\x7d" = some (.obj [])
      ∧ (Json.obj []).atStr "code" = none := by
  exact ⟨by decide, rfl, rfl⟩

/-- C2 (amended): a transport-level failure yields HttpError with status 0;
for a status of at least 400, a body that fails json::parse yields HttpError
with the numeric status; a body that parses and from which
value("code", "unknown") and value("message", body) both extract (absent
fields falling back to those defaults rather than degrading to HttpError)
yields ApiError with the extracted strings; a parsed body on which either
extraction throws (a non-object document or a present non-string field)
yields HttpError with the numeric status; a status below 400 raises nothing;
and screenshot and usage surface whatever error check_response raises. -/
theorem c2_check_response_amended :
    (∀ e ctx, check_response (Except.error e) ctx = some (.http 0 (ctx ++ ": " ++ e)))
    ∧ (∀ (r : HttpResponse) ctx, r.status ≥ 400 → Json.parse r.body = none →
        check_response (Except.ok r) ctx
          = some (.http r.status (ctx ++ ": HTTP " ++ toString r.status)))
    ∧ (∀ (r : HttpResponse) ctx j code message, r.status ≥ 400 →
        Json.parse r.body = some j →
        j.valueStr "code" "unknown" = some code →
        j.valueStr "message" r.body = some message →
        check_response (Except.ok r) ctx = some (.api code message))
    ∧ (∀ (r : HttpResponse) ctx j, r.status ≥ 400 → Json.parse r.body = some j →
        j.valueStr "code" "unknown" = none ∨ j.valueStr "message" r.body = none →
        check_response (Except.ok r) ctx
          = some (.http r.status (ctx ++ ": HTTP " ++ toString r.status)))
    ∧ (∀ (r : HttpResponse) ctx, r.status < 400 → check_response (Except.ok r) ctx = none)
    ∧ (∀ (c : Client) (options : ScreenshotOptions) (res : TransportResult) (e : Error),
        options.url.isEmpty = false → qualityOutOfRange options.quality = false →
        nonPositive options.width = false → nonPositive options.height = false →
        check_response res "Screenshot request failed" = some e →
        c.screenshot (fun _ _ _ _ => res) options = (.error e, 1))
    ∧ (∀ (c : Client) (res : TransportResult) (e : Error),
        check_response res "Usage request failed" = some e →
        c.usage (fun _ _ => res) = .error e) := by
  refine ⟨fun e ctx => rfl, ?_, ?_, ?_, ?_, ?_, ?_⟩
  · intro r ctx hst hp
    unfold check_response
    simp [hst, hp]
  · intro r ctx j code message hst hp hc hm
    unfold check_response
    simp [hst, hp, hc, hm]
  · intro r ctx j hst hp hcm
    unfold check_response
    rcases hcm with hc | hm
    · simp [hst, hp, hc]
    · cases hc : j.valueStr "code" "unknown" with
      | none => simp [hst, hp, hc]
      | some code => simp [hst, hp, hc, hm]
  · intro r ctx hst
    unfold check_response
    simp [not_le.mpr hst]
  · intro c options res e hurl hq hw hh hcheck
    rw [screenshot_validated c _ options hurl hq hw hh]
    unfold screenshotResponse
    rw [hcheck]
  · intro c res e hcheck
    unfold Client.usage usageResponse
    rw [hcheck]

/-- C2 witness: the amended theorem applied to a transport failure, a 500
with a non-JSON body, a 402 with a quota_exceeded error body, a 402 with a
JSON array body, and a passing 200. -/
theorem c2_witness :
    check_response (Except.error "Connection") "C" = some (.http 0 "C: Connection")
    ∧ check_response (Except.ok ⟨500, "", "oops"⟩) "C" = some (.http 500 "C: HTTP 500")
    ∧ check_response
        (Except.ok ⟨402, "", "\x7b\"code\":\"quota_exceeded\",\"message\":\"limit reached\"\x7d"⟩)
        "C" = some (.api "quota_exceeded" "limit reached")
    ∧ check_response (Except.ok ⟨402, "", "[1]"⟩) "C" = some (.http 402 "C: HTTP 402")
    ∧ check_response (Except.ok ⟨200, "image/png", "B"⟩) "C" = none :=
  ⟨c2_check_response_amended.1 "Connection" "C",
   c2_check_response_amended.2.1 ⟨500, "", "oops"⟩ "C" (by decide) rfl,
   c2_check_response_amended.2.2.1
     ⟨402, "", "\x7b\"code\":\"quota_exceeded\",\"message\":\"limit reached\"\x7d"⟩ "C"
     (Json.obj [("code", Json.str "quota_exceeded"), ("message", Json.str "limit reached")])
     "quota_exceeded" "limit reached" (by decide) rfl rfl rfl,
   c2_check_response_amended.2.2.2.1 ⟨402, "", "[1]"⟩ "C" (Json.arr [Json.num 1])
     (by decide) rfl (Or.inl rfl),
   c2_check_response_amended.2.2.2.2.1 ⟨200, "image/png", "B"⟩ "C" (by decide)⟩

/-- C1 counterexample: a stub transport answering HTTP 200 with Content-Type
image/png and the empty body, store not requested: screenshot wraps the body
unchanged, but is_bytes() on the returned result is false, refuting
"is_bytes() == true ... for every body B including the empty body". -/
theorem c1_counterexample :
    ((({ config := { api_key := "k" } } : Client)).screenshot
        (fun _ _ _ _ => Except.ok ⟨200, "image/png", ""⟩) { url := "https://a" }).1
        = Except.ok (ScreenshotResult.ofBytes [])
      ∧ (ScreenshotResult.ofBytes []).is_bytes = false := by
  exact ⟨by decide, rfl⟩

/-- C1 (amended): for every HTTP 200 response whose Content-Type does not
contain application/json, when store was not set to true (and the options
pass validation), screenshot wraps the body unchanged: the result carries
exactly the body's bytes, is_stored() is false, bytes() returns the body
exactly — and is_bytes() is true exactly when the body is nonempty (on the
empty body it returns false). -/
theorem c1_bytes_result_amended (c : Client) (ct bodyStr : String)
    (options : ScreenshotOptions)
    (hurl : options.url.isEmpty = false)
    (hq : qualityOutOfRange options.quality = false)
    (hw : nonPositive options.width = false)
    (hh : nonPositive options.height = false)
    (hstore : options.store ≠ some true)
    (hct : strContains ct "application/json" = false) :
    c.screenshot (fun _ _ _ _ => Except.ok ⟨200, ct, bodyStr⟩) options
        = (.ok (ScreenshotResult.ofBytes bodyStr.data), 1)
      ∧ (ScreenshotResult.ofBytes bodyStr.data).is_stored = false
      ∧ (ScreenshotResult.ofBytes bodyStr.data).bytes = .ok bodyStr.data
      ∧ ((ScreenshotResult.ofBytes bodyStr.data).is_bytes = true ↔ bodyStr.data ≠ []) := by
  refine ⟨?_, rfl, rfl, ?_⟩
  · rw [screenshot_validated c _ options hurl hq hw hh]
    unfold screenshotResponse check_response
    simp [store_getD_false hstore, hct]
  · simp [ScreenshotResult.is_bytes, ScreenshotResult.ofBytes]

/-- C1 witness: the amended theorem applied to a three-byte body. -/
theorem c1_witness :
    (({ config := { api_key := "k" } } : Client)).screenshot
        (fun _ _ _ _ => Except.ok ⟨200, "image/png", "IMG"⟩) { url := "https://a" }
        = (.ok (ScreenshotResult.ofBytes "IMG".data), 1)
      ∧ (ScreenshotResult.ofBytes "IMG".data).is_stored = false
      ∧ (ScreenshotResult.ofBytes "IMG".data).bytes = .ok "IMG".data
      ∧ ((ScreenshotResult.ofBytes "IMG".data).is_bytes = true ↔ "IMG".data ≠ []) :=
  c1_bytes_result_amended { config := { api_key := "k" } } "image/png" "IMG"
    { url := "https://a" } (by decide) (by decide) (by decide) (by decide)
    (by decide) (by decide)

/-- C4: on a successful (status below 400) response, when store was
requested or the Content-Type contains application/json, screenshot parses
the body as JSON into a StoredScreenshot whose five fields equal the
corresponding JSON fields exactly; a body on which that parse or a required
field extraction fails makes screenshot fail with the generic Error. -/
theorem c4_stored_parse (c : Client) (status : Int) (ct bodyStr : String)
    (options : ScreenshotOptions)
    (hurl : options.url.isEmpty = false)
    (hq : qualityOutOfRange options.quality = false)
    (hw : nonPositive options.width = false)
    (hh : nonPositive options.height = false)
    (hmode : options.store = some true ∨ strContains ct "application/json" = true)
    (hstatus : status < 400) :
    (∀ (j : Json) (url expires_at : String) (width height size_bytes : Int),
        Json.parse bodyStr = some j →
        j.atStr "url" = some url →
        j.atStr "expires_at" = some expires_at →
        j.atInt "width" = some width →
        j.atInt "height" = some height →
        j.atInt "size_bytes" = some size_bytes →
        c.screenshot (fun _ _ _ _ => Except.ok ⟨status, ct, bodyStr⟩) options
          = (.ok (ScreenshotResult.ofStored
              { url := url, expires_at := expires_at, width := width,
                height := height, size_bytes := size_bytes }), 1))
    ∧ (parseStored bodyStr = none →
        c.screenshot (fun _ _ _ _ => Except.ok ⟨status, ct, bodyStr⟩) options
          = (.error (.generic "Failed to parse stored screenshot response"), 1)) := by
  have hnot : ¬ (status ≥ 400) := by omega
  have hmode2 : (options.store.getD false || strContains ct "application/json") = true := by
    rcases hmode with h | h
    · rw [h]
      rfl
    · rw [h]
      simp
  constructor
  · intro j url expires_at width height size_bytes hp h1 h2 h3 h4 h5
    have hps : parseStored bodyStr
        = some { url := url, expires_at := expires_at, width := width,
                 height := height, size_bytes := size_bytes } := by
      simp [parseStored, hp, h1, h2, h3, h4, h5]
    rw [screenshot_validated c _ options hurl hq hw hh]
    unfold screenshotResponse check_response
    simp [hnot, hmode2, hps]
  · intro hps
    rw [screenshot_validated c _ options hurl hq hw hh]
    unfold screenshotResponse check_response
    simp [hnot, hmode2, hps]

/-- C4 witness: the theorem applied to the spec's example stored-response
body with store requested, and to a non-JSON body. -/
theorem c4_witness :
    (({ config := { api_key := "k" } } : Client)).screenshot
        (fun _ _ _ _ => Except.ok ⟨200, "application/json",
          "\x7b\"url\":\"https://x/y.png\",\"expires_at\":\"2025-01-01T00:00:00Z\",\"width\":800,\"height\":600,\"size_bytes\":12345\x7d"⟩)
        { url := "https://a", store := some true }
        = (.ok (ScreenshotResult.ofStored
            { url := "https://x/y.png", expires_at := "2025-01-01T00:00:00Z", width := 800,
              height := 600, size_bytes := 12345 }), 1)
      ∧ (({ config := { api_key := "k" } } : Client)).screenshot
          (fun _ _ _ _ => Except.ok ⟨200, "application/json", "not json"⟩)
          { url := "https://a", store := some true }
          = (.error (.generic "Failed to parse stored screenshot response"), 1) :=
  ⟨(c4_stored_parse { config := { api_key := "k" } } 200 "application/json"
      "\x7b\"url\":\"https://x/y.png\",\"expires_at\":\"2025-01-01T00:00:00Z\",\"width\":800,\"height\":600,\"size_bytes\":12345\x7d"
      { url := "https://a", store := some true } (by decide) (by decide) (by decide)
      (by decide) (Or.inl rfl) (by decide)).1
      (Json.obj [("url", Json.str "https://x/y.png"),
        ("expires_at", Json.str "2025-01-01T00:00:00Z"), ("width", Json.num 800),
        ("height", Json.num 600), ("size_bytes", Json.num 12345)])
      "https://x/y.png" "2025-01-01T00:00:00Z" 800 600 12345 rfl rfl rfl rfl rfl rfl,
   (c4_stored_parse { config := { api_key := "k" } } 200 "application/json" "not json"
      { url := "https://a", store := some true } (by decide) (by decide) (by decide)
      (by decide) (Or.inl rfl) (by decide)).2 rfl⟩

/-- C7: usage() maps a well-formed JSON payload into the Usage fields with
no transformation, and a payload with a missing required field makes usage()
fail with the generic Error. -/
theorem c7_usage_roundtrip (c : Client) (status : Int) (ct bodyStr : String)
    (hstatus : status < 400) :
    (∀ (j : Json) (taken limit used cap : Int) (ps pe : String),
        Json.parse bodyStr = some j →
        j.atInt "screenshots_taken" = some taken →
        j.atInt "screenshots_limit" = some limit →
        j.atInt "storage_bytes_used" = some used →
        j.atInt "storage_bytes_limit" = some cap →
        j.atStr "period_start" = some ps →
        j.atStr "period_end" = some pe →
        c.usage (fun _ _ => Except.ok ⟨status, ct, bodyStr⟩)
          = .ok { screenshots_taken := taken, screenshots_limit := limit,
                  storage_bytes_used := used, storage_bytes_limit := cap,
                  period_start := ps, period_end := pe })
    ∧ (parseUsage bodyStr = none →
        c.usage (fun _ _ => Except.ok ⟨status, ct, bodyStr⟩)
          = .error (.generic "Failed to parse usage response")) := by
  have hnot : ¬ (status ≥ 400) := by omega
  constructor
  · intro j taken limit used cap ps pe hp h1 h2 h3 h4 h5 h6
    have hpu : parseUsage bodyStr
        = some { screenshots_taken := taken, screenshots_limit := limit,
                 storage_bytes_used := used, storage_bytes_limit := cap,
                 period_start := ps, period_end := pe } := by
      simp [parseUsage, hp, h1, h2, h3, h4, h5, h6]
    unfold Client.usage usageResponse check_response
    simp [hnot, hpu]
  · intro hpu
    unfold Client.usage usageResponse check_response
    simp [hnot, hpu]

/-- C7 witness: the theorem applied to a six-field usage payload and to a
payload missing period_end. -/
theorem c7_witness :
    (({ config := { api_key := "k" } } : Client)).usage
        (fun _ _ => Except.ok ⟨200, "application/json",
          "\x7b\"screenshots_taken\":5,\"screenshots_limit\":100,\"storage_bytes_used\":1024,\"storage_bytes_limit\":2048,\"period_start\":\"2025-01-01\",\"period_end\":\"2025-02-01\"\x7d"⟩)
        = .ok { screenshots_taken := 5, screenshots_limit := 100,
                storage_bytes_used := 1024, storage_bytes_limit := 2048,
                period_start := "2025-01-01", period_end := "2025-02-01" }
      ∧ (({ config := { api_key := "k" } } : Client)).usage
          (fun _ _ => Except.ok ⟨200, "application/json",
            "\x7b\"screenshots_taken\":5\x7d"⟩)
          = .error (.generic "Failed to parse usage response") :=
  ⟨(c7_usage_roundtrip { config := { api_key := "k" } } 200 "application/json"
      "\x7b\"screenshots_taken\":5,\"screenshots_limit\":100,\"storage_bytes_used\":1024,\"storage_bytes_limit\":2048,\"period_start\":\"2025-01-01\",\"period_end\":\"2025-02-01\"\x7d"
      (by decide)).1
      (Json.obj [("screenshots_taken", Json.num 5), ("screenshots_limit", Json.num 100),
        ("storage_bytes_used", Json.num 1024), ("storage_bytes_limit", Json.num 2048),
        ("period_start", Json.str "2025-01-01"), ("period_end", Json.str "2025-02-01")])
      5 100 1024 2048 "2025-01-01" "2025-02-01" rfl rfl rfl rfl rfl rfl rfl,
   (c7_usage_roundtrip { config := { api_key := "k" } } 200 "application/json"
      "\x7b\"screenshots_taken\":5\x7d" (by decide)).2 rfl⟩

end Pxshot
